import Mathlib

/-!
Verification development for the `mc_state_observation` repository.

The definitions below are a shallow embedding of the contact registry
(`include/mc_state_observation/observersTools/measurementsTools.h`), of the
contact detection and update cycle of `src/MCKineticsObserver.cpp`, and of the
legged-odometry components declared in
`include/mc_state_observation/odometry/LeggedOdometryManager.h`.

Conventions:
- machine doubles are modelled as exact rationals (only comparisons and sums
  appear in the embedded code paths);
- `BOOST_ASSERT` failures are modelled as `MapError.consistency`,
  `std::map::at` / `std::vector::at` on a missing key as `MapError.notFound`;
- queries answered by the external `RobotModel` collaborator (robot name,
  surface-to-sensor resolution, sensor readings) are passed in as data.
-/

deriving instance DecidableEq for Except

namespace McSO

/-- Error outcomes of the embedded registry code: `consistency` models a
`BOOST_ASSERT` failure (the spec's `ConsistencyError`), `notFound` models
`std::map::at` / `std::vector::at` called on a missing key (`NotFoundError`). -/
inductive MapError where
  | consistency : MapError
  | notFound : MapError
deriving DecidableEq, Repr

/-- Association-list lookup, modelling `std::map::find` / `::at` on maps keyed
by contact name (keys are unique in all states reachable by the embedded
operations). -/
def alistFind {β : Type} (l : List (String × β)) (k : String) : Option β :=
  match l with
  | [] => none
  | (k', v) :: rest => if k' = k then some v else alistFind rest k

/-- Embeds `measurements::ContactWithSensor` (measurementsTools.h, lines
206-271): identity, force-sensor association and lifecycle flags. -/
structure ContactWithSensor where
  id : Int
  name : String
  forceSensorName : String
  surface : Option String
  sensorAttachedToSurface : Bool
  isSet : Bool
  wasAlreadySet : Bool
  sensorEnabled : Bool
  sensorWasEnabled : Bool
deriving DecidableEq, Repr

/-- `ContactWithSensor(int id, std::string forceSensorName)` (lines 213-220):
the contact is named after the force sensor; `sensorAttachedToSurface_` keeps
its default `true`. -/
def mkContactWithSensor (id : Int) (forceSensorName : String) : ContactWithSensor :=
  { id := id, name := forceSensorName, forceSensorName := forceSensorName,
    surface := none, sensorAttachedToSurface := true,
    isSet := false, wasAlreadySet := false,
    sensorEnabled := true, sensorWasEnabled := false }

/-- `ContactWithSensor(int id, forceSensorName, surfaceName,
sensorAttachedToSurface)` (lines 223-235): the contact is named after the
surface. -/
def mkContactWithSensorSurface (id : Int) (forceSensorName surfaceName : String)
    (sensorAttachedToSurface : Bool) : ContactWithSensor :=
  { id := id, name := surfaceName, forceSensorName := forceSensorName,
    surface := some surfaceName, sensorAttachedToSurface := sensorAttachedToSurface,
    isSet := false, wasAlreadySet := false,
    sensorEnabled := true, sensorWasEnabled := false }

/-- Embeds `measurements::ContactWithoutSensor` (lines 273-286): the surface
name doubles as the contact name. -/
structure ContactWithoutSensor where
  id : Int
  name : String
  surface : String
  isSet : Bool
  wasAlreadySet : Bool
deriving DecidableEq, Repr

/-- `ContactWithoutSensor(int id, std::string name)` (lines 279-285). -/
def mkContactWithoutSensor (id : Int) (name : String) : ContactWithoutSensor :=
  { id := id, name := name, surface := name, isSet := false, wasAlreadySet := false }

/-- Embeds the state of `measurements::MapContacts` (lines 288-552):
`hasSensor_`, `mapContactsWithSensors_`, `mapContactsWithoutSensors_`,
`insertOrder_` and the id generator `num_`. -/
structure MapContacts where
  hasSensorMap : List (String × Bool) := []
  mapContactsWithSensors : List (String × ContactWithSensor) := []
  mapContactsWithoutSensors : List (String × ContactWithoutSensor) := []
  insertOrder : List String := []
  num : Int := 0
deriving DecidableEq, Repr

/-- Embeds `MapContacts::checkAlreadyExists(const std::string &, const bool)`
(lines 500-513): if the name is already in `insertOrder_`, asserts that the
stored `hasSensor_` entry equals the requested association. -/
def checkAlreadyExistsNoSurface (m : MapContacts) (name : String) (hasSensor : Bool) :
    Except MapError Bool :=
  if name ∈ m.insertOrder then
    match alistFind m.hasSensorMap name with
    | none => .error .notFound
    | some stored => if stored = hasSensor then .ok true else .error .consistency
  else .ok false

/-- Embeds `MapContacts::insertElement(const std::string &, const bool &)`
(lines 478-492). The translation is faithful to the source: the `else`
(no-sensor) branch also stores `true` in `hasSensor_` (line 490). -/
def insertElementNoSurface (m : MapContacts) (name : String) (hasSensor : Bool) : MapContacts :=
  if hasSensor then
    { m with insertOrder := m.insertOrder ++ [name],
             mapContactsWithSensors :=
               m.mapContactsWithSensors ++ [(name, mkContactWithSensor m.num name)],
             hasSensorMap := m.hasSensorMap ++ [(name, true)] }
  else
    { m with insertOrder := m.insertOrder ++ [name],
             mapContactsWithoutSensors :=
               m.mapContactsWithoutSensors ++ [(name, mkContactWithoutSensor m.num name)],
             hasSensorMap := m.hasSensorMap ++ [(name, true)] }

/-- Embeds `MapContacts::insertContact(const std::string &, const bool &)`
(lines 432-438): no-op if the name already exists (after the consistency
check), otherwise insert and increment `num_`. -/
def insertContactNoSurface (m : MapContacts) (name : String) (hasSensor : Bool) :
    Except MapError MapContacts := do
  let alreadyThere ← checkAlreadyExistsNoSurface m name hasSensor
  if alreadyThere then pure m
  else pure { insertElementNoSurface m name hasSensor with num := m.num + 1 }

/-- Embeds `MapContacts::checkAlreadyExists(bool, const std::string &)`
(lines 522-539): for an existing name, asserts it is sensor-bound and that the
stored `sensorAttachedToSurface_` matches the requested one. -/
def checkAlreadyExistsSurface (m : MapContacts) (sensorAttachedToSurface : Bool)
    (name : String) : Except MapError Bool :=
  if name ∈ m.insertOrder then
    match alistFind m.hasSensorMap name with
    | none => .error .notFound
    | some stored =>
      if stored = false then .error .consistency
      else
        match alistFind m.mapContactsWithSensors name with
        | none => .error .notFound
        | some c =>
          if c.sensorAttachedToSurface = sensorAttachedToSurface then .ok true
          else .error .consistency
  else .ok false

/-- Embeds `MapContacts::insertElement(forceSensorName, surface,
sensorAttachedToSurface)` (lines 463-472): the contact is keyed by the surface
name. -/
def insertElementSurface (m : MapContacts) (forceSensorName surface : String)
    (sensorAttachedToSurface : Bool) : MapContacts :=
  { m with insertOrder := m.insertOrder ++ [surface],
           mapContactsWithSensors :=
             m.mapContactsWithSensors ++
               [(surface, mkContactWithSensorSurface m.num forceSensorName surface
                   sensorAttachedToSurface)],
           hasSensorMap := m.hasSensorMap ++ [(surface, true)] }

/-- Embeds `MapContacts::insertContact(forceSensorName, surface,
sensorAttachedToSurface)` (lines 446-454). -/
def insertContactSurface (m : MapContacts) (forceSensorName surface : String)
    (sensorAttachedToSurface : Bool) : Except MapError MapContacts := do
  let alreadyThere ← checkAlreadyExistsSurface m sensorAttachedToSurface surface
  if alreadyThere then pure m
  else pure { insertElementSurface m forceSensorName surface sensorAttachedToSurface with
              num := m.num + 1 }

/-- Embeds `MapContacts::getNameFromNum` (lines 378-381):
`insertOrder_.at(num)`. -/
def getNameFromNum (m : MapContacts) (num : Int) : Except MapError String :=
  if 0 ≤ num then
    match m.insertOrder.get? num.toNat with
    | some n => .ok n
    | none => .error .notFound
  else .error .notFound

/-- Embeds `MapContacts::getNumFromName` (lines 387-397): dispatches on
`hasSensor_.at(name)` and reads the id from the corresponding map. -/
def getNumFromName (m : MapContacts) (name : String) : Except MapError Int :=
  match alistFind m.hasSensorMap name with
  | none => .error .notFound
  | some true =>
    match alistFind m.mapContactsWithSensors name with
    | some c => .ok c.id
    | none => .error .notFound
  | some false =>
    match alistFind m.mapContactsWithoutSensors name with
    | some c => .ok c.id
    | none => .error .notFound

/-! ## Contact detection and the per-cycle contact update of `MCKineticsObserver` -/

/-- Exact stand-in for `Eigen::Vector3d` values that are only ever summed. -/
abbrev Vec3 := ℚ × ℚ × ℚ

/-- One entry of `measRobot.forceSensors()` together with the readings the
embedded code consults: `wrenchWithoutGravity(measRobot).force().z()` for the
detection thresholds, and `worldWrenchWithoutGravity(inputRobot)` for the
additional-wrench sum. These readings are provided by the external
`RobotModel` collaborator. -/
structure ForceSensorReading where
  name : String
  forceZ : ℚ
  worldForce : Vec3
  worldMoment : Vec3
deriving DecidableEq, Repr

/-- The `isExternalWrench_` map (`std::map<std::string, bool>`), keyed by force
sensor name; it is filled with `true` for every force sensor in
`MCKineticsObserver::reset` (MCKineticsObserver.cpp, lines 190-193). -/
abbrev ExtFlags := List (String × Bool)

/-- Models `flags.at(n) = b`: overwrite the entry of key `n`, failing like
`std::map::at` when the key is absent. -/
def setFlag (flags : ExtFlags) (n : String) (b : Bool) : Except MapError ExtFlags :=
  match flags with
  | [] => .error .notFound
  | (k, v) :: rest =>
    if k = n then .ok ((k, b) :: rest)
    else (setFlag rest n b).map (fun r => (k, v) :: r)

/-- The detection predicate of the force-threshold branch of
`MCKineticsObserver::findContacts` (lines 564-572):
`forceSensor.wrenchWithoutGravity(measRobot).force().z() > mass * gravity * 0.3`. -/
def thresholdDetected (mass gravity : ℚ) (s : ForceSensorReading) : Bool :=
  decide (mass * gravity * (3 / 10) < s.forceZ)

/-- Embeds the `else` branch of `MCKineticsObserver::findContacts`
(lines 562-573): every force sensor whose gravity-free force z-component
exceeds `mass * gravity * 0.3` is inserted in `contactsFound_` and its
`isExternalWrench_` entry is set to `false`. -/
def findContactsFromThreshold (mass gravity : ℚ) :
    List ForceSensorReading → Finset String → ExtFlags →
    Except MapError (Finset String × ExtFlags)
  | [], found, flags => .ok (found, flags)
  | s :: rest, found, flags =>
    if thresholdDetected mass gravity s then do
      let flags' ← setFlag flags s.name false
      findContactsFromThreshold mass gravity rest (insert s.name found) flags'
    else findContactsFromThreshold mass gravity rest found flags

/-- One contact supplied by `ctl.solver().contacts()` together with the
robot-model facts the solver branch consults: the names of the two robots,
whether each robot's root joint (`mb().joint(0)`) is `Fixed`, and the two
contact surfaces. -/
structure SolverContact where
  r1Name : String
  r2Name : String
  r1BaseFixed : Bool
  r2BaseFixed : Bool
  r1Surface : String
  r2Surface : String
deriving DecidableEq, Repr

/-- The detection predicate of the solver branch (lines 539 and 552):
`ifs.wrenchWithoutGravity(measRobot).force().z() > mass * gravity * 0.05`. -/
def solverDetected (mass gravity : ℚ) (s : ForceSensorReading) : Bool :=
  decide (mass * gravity * (1 / 20) < s.forceZ)

/-- Embeds the `withContactsDetection_` branch of
`MCKineticsObserver::findContacts` (lines 528-561). `surfaceSensor` stands for
`measRobot.indirectSurfaceForceSensor`, a query answered by the external robot
model. A solver contact is kept only when the measured robot is one of its two
robots, the other robot has a fixed base, and the associated sensor's measured
force z-component exceeds `mass * gravity * 0.05`; the kept contact
contributes the sensor's name and clears the sensor's `isExternalWrench_`
entry. -/
def findContactsFromSolver (robotName : String) (mass gravity : ℚ)
    (surfaceSensor : String → ForceSensorReading) :
    List SolverContact → Finset String → ExtFlags →
    Except MapError (Finset String × ExtFlags)
  | [], found, flags => .ok (found, flags)
  | c :: rest, found, flags =>
    if c.r1Name = robotName then
      if c.r2BaseFixed then
        let ifs := surfaceSensor c.r1Surface
        if solverDetected mass gravity ifs then do
          let flags' ← setFlag flags ifs.name false
          findContactsFromSolver robotName mass gravity surfaceSensor rest
            (insert ifs.name found) flags'
        else findContactsFromSolver robotName mass gravity surfaceSensor rest found flags
      else findContactsFromSolver robotName mass gravity surfaceSensor rest found flags
    else if c.r2Name = robotName then
      if c.r1BaseFixed then
        let ifs := surfaceSensor c.r2Surface
        if solverDetected mass gravity ifs then do
          let flags' ← setFlag flags ifs.name false
          findContactsFromSolver robotName mass gravity surfaceSensor rest
            (insert ifs.name found) flags'
        else findContactsFromSolver robotName mass gravity surfaceSensor rest found flags
      else findContactsFromSolver robotName mass gravity surfaceSensor rest found flags
    else findContactsFromSolver robotName mass gravity surfaceSensor rest found flags

/-- Embeds the loop body of `MCKineticsObserver::inputAdditionalWrench`
(lines 465-484): a sensor whose `isExternalWrench_` entry is `true` adds its
gravity-free world wrench to the running sums; otherwise the entry is set back
to `true`. -/
def inputAdditionalWrench :
    List ForceSensorReading → Vec3 → Vec3 → ExtFlags →
    Except MapError (Vec3 × Vec3 × ExtFlags)
  | [], force, moment, flags => .ok (force, moment, flags)
  | s :: rest, force, moment, flags =>
    match alistFind flags s.name with
    | none => .error .notFound
    | some true =>
      inputAdditionalWrench rest (force + s.worldForce) (moment + s.worldMoment) flags
    | some false => do
      let flags' ← setFlag flags s.name true
      inputAdditionalWrench rest force moment flags'

/-- Embeds one `MCKineticsObserver::findContacts` call followed by the
`inputAdditionalWrench` call it performs (line 575): the detection branch is
selected by `withContactsDetection_`, the wrench sums start from zero
(`setZero`, lines 467-468). -/
def findContactsCycle (withContactsDetection : Bool) (robotName : String)
    (mass gravity : ℚ) (surfaceSensor : String → ForceSensorReading)
    (solverContacts : List SolverContact) (sensors : List ForceSensorReading)
    (flags : ExtFlags) : Except MapError (Finset String × Vec3 × Vec3 × ExtFlags) := do
  let (found, flags1) ←
    if withContactsDetection then
      findContactsFromSolver robotName mass gravity surfaceSensor solverContacts ∅ flags
    else
      findContactsFromThreshold mass gravity sensors ∅ flags
  let (force, moment, flags2) ← inputAdditionalWrench sensors 0 0 flags1
  pure (found, force, moment, flags2)

/-- Embeds the removal computation of `MCKineticsObserver::updateContacts`
(lines 721-732): `diffs = oldContacts_ \ updatedContacts` (`std::set_difference`),
one `observer_.removeContact` call per element of `diffs`, then
`oldContacts_ = updatedContacts` (line 732). Returns the removed set and the
new `oldContacts_`. -/
def updateContactsStep (oldContacts found : Finset String) : Finset String × Finset String :=
  (oldContacts \ found, found)

/-- Runs `updateContacts` over a whole sequence of per-cycle found sets,
returning the per-cycle removed sets. -/
def runUpdateContacts (oldContacts : Finset String) :
    List (Finset String) → List (Finset String)
  | [] => []
  | found :: rest =>
    let (removed, oldContacts') := updateContactsStep oldContacts found
    removed :: runUpdateContacts oldContacts' rest

/-- The found set of the previous cycle (the value of `oldContacts_` when
cycle `k` starts): the initial `oldContacts_` for `k = 0`, the found set of
cycle `k - 1` afterwards. -/
def oldBefore (init : Finset String) (founds : List (Finset String)) (k : Nat) :
    Finset String :=
  if k = 0 then init else founds.getD (k - 1) ∅

/-- Statement vocabulary: the names of the sensors that pass the
force-threshold detection. -/
def thresholdDetectedNames (mass gravity : ℚ) (sensors : List ForceSensorReading) :
    Finset String :=
  ((sensors.filter (thresholdDetected mass gravity)).map ForceSensorReading.name).toFinset

/-- Statement vocabulary: the sensor names contributed by the solver branch,
mirroring its robot-match, fixed-base and force-threshold conditions. -/
def solverDetectedNames (robotName : String) (mass gravity : ℚ)
    (surfaceSensor : String → ForceSensorReading) (solverContacts : List SolverContact) :
    Finset String :=
  ((solverContacts.filterMap fun c =>
      if c.r1Name = robotName then
        if c.r2BaseFixed ∧ solverDetected mass gravity (surfaceSensor c.r1Surface) then
          some (surfaceSensor c.r1Surface).name
        else none
      else if c.r2Name = robotName ∧ c.r1BaseFixed
              ∧ solverDetected mass gravity (surfaceSensor c.r2Surface) then
        some (surfaceSensor c.r2Surface).name
      else none)).toFinset

/-- A definition that follows the spec's words, for the refinement comparison
of the FromSolver claim: "the found set is supplied directly by the
motion-planning/contact-solver collaborator (already filtered); the detector
only forwards it", each contact passing through the output shape as the name
of the force sensor associated to the contact's surface on the observed
robot. -/
def specSolverForwardedFound (robotName : String)
    (surfaceSensor : String → ForceSensorReading) (solverContacts : List SolverContact) :
    Finset String :=
  ((solverContacts.filterMap fun c =>
      if c.r1Name = robotName then some (surfaceSensor c.r1Surface).name
      else if c.r2Name = robotName then some (surfaceSensor c.r2Surface).name
      else none)).toFinset

/-- Statement vocabulary: the summed gravity-free world force of the sensors
that are *not* matched to a detected contact this cycle. -/
def sumExternalForce (sensors : List ForceSensorReading) (found : Finset String) : Vec3 :=
  ((sensors.filter fun t => decide (t.name ∉ found)).map ForceSensorReading.worldForce).sum

/-- Statement vocabulary: the summed gravity-free world moment of the sensors
that are *not* matched to a detected contact this cycle. -/
def sumExternalMoment (sensors : List ForceSensorReading) (found : Finset String) : Vec3 :=
  ((sensors.filter fun t => decide (t.name ∉ found)).map ForceSensorReading.worldMoment).sum

/-- Statement vocabulary: the summed world force of the sensors whose
`isExternalWrench_` entry currently reads `true`. -/
def sumFlaggedForce (flags : ExtFlags) (sensors : List ForceSensorReading) : Vec3 :=
  ((sensors.filter fun t => alistFind flags t.name == some true).map
    ForceSensorReading.worldForce).sum

/-- Statement vocabulary: the summed world moment of the sensors whose
`isExternalWrench_` entry currently reads `true`. -/
def sumFlaggedMoment (flags : ExtFlags) (sensors : List ForceSensorReading) : Vec3 :=
  ((sensors.filter fun t => alistFind flags t.name == some true).map
    ForceSensorReading.worldMoment).sum

/-! ## Legged odometry (`odometry/LeggedOdometryManager.h`)

The header is part of the sources; the bodies of `selectForOrientationOdometry`,
of the flat-odometry pose commitment and of `getAnchorFramePose` live in
`LeggedOdometryManager.hpp`, which is not part of the sources. Those bodies
are modelled from the spec below, against the state declared in the header. -/

/-- The data of a `LoContactWithSensor` consulted by the orientation selector:
id and measured force norm (from `ContactWithSensor`), the `isSet_` flag, the
`useForOrientation_` flag of `LoContactWithSensor`, and whether the contact is
a hand contact. -/
structure LoContact where
  id : Int
  name : String
  forceNorm : ℚ
  isSet : Bool
  useForOrientation : Bool
  isHand : Bool
deriving DecidableEq, Repr

/-- Embeds the comparator
`LeggedOdometryContactsManager::sortByForce::operator()`
(LeggedOdometryManager.h, lines 62-68): contacts are ordered by measured force
norm alone. -/
def sortByForce (contact1 contact2 : LoContact) : Bool :=
  decide (contact1.forceNorm < contact2.forceNorm)

/-- Eligibility for the orientation odometry: the contact is currently set,
marked `useForOrientation_`, and is not a hand contact (header lines 71-73:
"At most two contacts can be used for this estimation, and contacts at hands
are not considered. The contacts with the highest measured force are used."). -/
def oriContactEligible (c : LoContact) : Bool :=
  c.isSet && c.useForOrientation && !c.isHand

/-- The selection priority used to rank eligible contacts: higher measured
force first, ties broken by ascending contact id. -/
def oriPriority (c1 c2 : LoContact) : Prop :=
  c2.forceNorm < c1.forceNorm ∨ (c1.forceNorm = c2.forceNorm ∧ c1.id ≤ c2.id)

instance : DecidableRel oriPriority := fun c1 c2 => by
  unfold oriPriority; infer_instance

instance : IsTotal LoContact oriPriority where
  total c1 c2 := by
    unfold oriPriority
    rcases lt_trichotomy c1.forceNorm c2.forceNorm with h | h | h
    · exact Or.inr (Or.inl h)
    · rcases le_total c1.id c2.id with h2 | h2
      · exact Or.inl (Or.inr ⟨h, h2⟩)
      · exact Or.inr (Or.inr ⟨h.symm, h2⟩)
    · exact Or.inl (Or.inl h)

instance : IsTrans LoContact oriPriority where
  trans c1 c2 c3 h12 h23 := by
    unfold oriPriority at *
    rcases h12 with h12 | ⟨h12e, h12i⟩
    · rcases h23 with h23 | ⟨h23e, _⟩
      · exact Or.inl (h23.trans h12)
      · exact Or.inl (h23e ▸ h12)
    · rcases h23 with h23 | ⟨h23e, h23i⟩
      · exact Or.inl (h12e ▸ h23)
      · exact Or.inr ⟨h12e.trans h23e, h12i.trans h23i⟩

/-- `c1` strictly outranks `c2` for the orientation odometry: strictly higher
measured force, or equal force and strictly smaller id. -/
def oriBeats (c1 c2 : LoContact) : Prop :=
  c2.forceNorm < c1.forceNorm ∨ (c1.forceNorm = c2.forceNorm ∧ c1.id < c2.id)

/-- Modelled from the spec: the body of
`LeggedOdometryManager::selectForOrientationOdometry` is defined in
`LeggedOdometryManager.hpp`, which is not among the sources. Following the
spec: "among currently set contacts with `useForOrientation=true` and not
flagged as hand-type, rank by measured force norm descending; select the top 2
(at most). Tie-break: ties broken by ascending contact id. Zero eligible
contacts ⇒ orientation odometry is not updatable this cycle." Returns the
selected contacts and the `oriUpdatable` flag. -/
def selectForOrientationOdometry (contacts : List LoContact) : List LoContact × Bool :=
  let eligible := contacts.filter oriContactEligible
  ((eligible.insertionSort oriPriority).take 2, !eligible.isEmpty)

/-- The floating-base position committed by the odometry; only the position is
relevant to the flat-odometry claim. -/
structure Pose3 where
  x : ℚ
  y : ℚ
  z : ℚ
deriving DecidableEq, Repr

/-- The odometry type enumeration of `measurements::OdometryType` as used in
the header (lines 110 and 614-616). -/
inductive OdometryType where
  | Flat : OdometryType
  | Odometry6d : OdometryType
deriving DecidableEq, Repr

/-- Modelled from the spec: the pose-commitment code of
`LeggedOdometryManager::run` / `updateOdometryRobot` is defined in
`LeggedOdometryManager.hpp`, which is not among the sources. Following the
spec: "Flat forces the z-position of the base to track the value obtained from
direct forward kinematics of the control-reference robot"; `Odometry6d` lets
all degrees of freedom be driven by contact tracking. -/
def commitPose (t : OdometryType) (estimate : Pose3) (refRobotZ : ℚ) : Pose3 :=
  match t with
  | .Flat => { estimate with z := refRobotZ }
  | .Odometry6d => estimate

/-- One odometry cycle: the contact odometry produces a floating-base estimate
from the previous committed pose (an arbitrary update function standing for
the contact-tracking computation), then the pose is committed according to the
odometry type. -/
def odometryStep (t : OdometryType) (prev : Pose3) (update : Pose3 → Pose3)
    (refRobotZ : ℚ) : Pose3 :=
  commitPose t (update prev) refRobotZ

/-- Runs the odometry over a sequence of cycles, each given by an estimate
update and the control-reference robot's z-position for that cycle; returns
the committed pose of every cycle. -/
def runOdometry (t : OdometryType) (init : Pose3) :
    List ((Pose3 → Pose3) × ℚ) → List Pose3
  | [] => []
  | (update, refRobotZ) :: rest =>
    let p := odometryStep t init update refRobotZ
    p :: runOdometry t p rest

/-- The anchor-frame bookkeeping declared in LeggedOdometryManager.h
(lines 605-613), with the initializers of the header:
`prevAnchorFromContacts_ = true`, `currAnchorFromContacts_ = true`,
`anchorFrameMethodChanged_ = false`. -/
structure AnchorState where
  prevAnchorFromContacts : Bool := true
  currAnchorFromContacts : Bool := true
  anchorFrameMethodChanged : Bool := false
deriving DecidableEq, Repr

/-- Modelled from the spec: the body of
`LeggedOdometryManager::getAnchorFramePose` is defined in
`LeggedOdometryManager.hpp`, which is not among the sources. Following the
spec and the header documentation (lines 385-393): if at least one contact is
active the anchor is computed from the contacts, otherwise it falls back to
the configured body-sensor frame; a boolean records whether the source of the
anchor changed since the previous cycle. -/
def anchorFrameStep {α : Type} (st : AnchorState) (hasActiveContacts : Bool)
    (fromContacts fallback : α) : α × AnchorState :=
  let curr := hasActiveContacts
  let anchor := if hasActiveContacts then fromContacts else fallback
  (anchor,
   { prevAnchorFromContacts := curr,
     currAnchorFromContacts := curr,
     anchorFrameMethodChanged := decide (curr ≠ st.prevAnchorFromContacts) })

/-- Runs the anchor-frame computation over a sequence of cycles; each input is
(at least one contact active, contact-derived anchor, fallback body-sensor
anchor), each output is (anchor pose, `anchorFrameMethodChanged_`). -/
def anchorFrameRun {α : Type} (st : AnchorState) :
    List (Bool × α × α) → List (α × Bool)
  | [] => []
  | (b, fromContacts, fallback) :: rest =>
    let (anchor, st') := anchorFrameStep st b fromContacts fallback
    (anchor, st'.anchorFrameMethodChanged) :: anchorFrameRun st' rest

/-! ## Helper lemmas -/

theorem runUpdateContacts_length (founds : List (Finset String)) :
    ∀ init : Finset String, (runUpdateContacts init founds).length = founds.length := by
  induction founds with
  | nil => intro init; rfl
  | cons f rest ih =>
    intro init
    simp [runUpdateContacts, updateContactsStep, ih f]

theorem runUpdateContacts_getD (founds : List (Finset String)) :
    ∀ (init : Finset String) (k : Nat), k < founds.length →
      (runUpdateContacts init founds).getD k ∅
        = oldBefore init founds k \ founds.getD k ∅ := by
  induction founds with
  | nil => intro init k hk; simp at hk
  | cons f rest ih =>
    intro init k hk
    cases k with
    | zero =>
      simp [runUpdateContacts, updateContactsStep, oldBefore]
    | succ k =>
      have hk' : k < rest.length := by simpa using hk
      have h := ih f k hk'
      cases k with
      | zero =>
        simpa [runUpdateContacts, updateContactsStep, oldBefore] using h
      | succ k2 =>
        simpa [runUpdateContacts, updateContactsStep, oldBefore] using h

theorem runUpdateContacts_getD_of_le (init : Finset String)
    (founds : List (Finset String)) (k : Nat) (hk : founds.length ≤ k) :
    (runUpdateContacts init founds).getD k ∅ = ∅ := by
  apply List.getD_eq_default
  rw [runUpdateContacts_length founds init]
  exact hk

/-! ## Claims about the contact update cycle -/

/-- C1: on every cycle of every run of `MCKineticsObserver::updateContacts`,
the found set and the removed set are disjoint, every removed contact belonged
to the previous cycle's found set, and the removed set equals the previous
found set minus the current one. -/
theorem found_removed_disjoint (init : Finset String)
    (founds : List (Finset String)) (k : Nat) (hk : k < founds.length) :
    (runUpdateContacts init founds).getD k ∅ ∩ founds.getD k ∅ = ∅
  ∧ (runUpdateContacts init founds).getD k ∅ ⊆ oldBefore init founds k
  ∧ (runUpdateContacts init founds).getD k ∅
      = oldBefore init founds k \ founds.getD k ∅ := by
  have h := runUpdateContacts_getD founds init k hk
  refine ⟨?_, ?_, h⟩
  · rw [h]; exact Finset.sdiff_inter_self _ _
  · rw [h]; exact Finset.sdiff_subset

/-- Witness for `found_removed_disjoint` at a concrete run: previous found set
`{"LF"}`, the single cycle finds `{"RF"}`. -/
theorem found_removed_disjoint_witness :
    (runUpdateContacts {"LF"} [{"RF"}]).getD 0 ∅ ∩ ([({"RF"} : Finset String)]).getD 0 ∅ = ∅
  ∧ (runUpdateContacts {"LF"} [{"RF"}]).getD 0 ∅ ⊆ oldBefore {"LF"} [{"RF"}] 0
  ∧ (runUpdateContacts {"LF"} [{"RF"}]).getD 0 ∅
      = oldBefore {"LF"} [{"RF"}] 0 \ ([({"RF"} : Finset String)]).getD 0 ∅ :=
  found_removed_disjoint {"LF"} [{"RF"}] 0 (by decide)

/-- C9: a contact that was found on cycle `k - 1` and is never found from
cycle `k` on is removed exactly once: it belongs to the removed set of cycle
`k` (so `observer_.removeContact` is invoked for it on that cycle), and to no
later cycle's removed set. -/
theorem contact_removed_exactly_once (init : Finset String)
    (founds : List (Finset String)) (c : String) (k : Nat)
    (hk0 : 0 < k) (hk : k < founds.length)
    (hprev : c ∈ founds.getD (k - 1) ∅)
    (habs : ∀ j, k ≤ j → c ∉ founds.getD j ∅) :
    c ∈ (runUpdateContacts init founds).getD k ∅
  ∧ ∀ j, k < j → c ∉ (runUpdateContacts init founds).getD j ∅ := by
  constructor
  · rw [runUpdateContacts_getD founds init k hk]
    have hold : oldBefore init founds k = founds.getD (k - 1) ∅ := by
      unfold oldBefore
      rw [if_neg (Nat.pos_iff_ne_zero.mp hk0)]
    rw [hold]
    exact Finset.mem_sdiff.mpr ⟨hprev, habs k le_rfl⟩
  · intro j hj
    by_cases hjl : j < founds.length
    · rw [runUpdateContacts_getD founds init j hjl]
      intro hmem
      have hold : oldBefore init founds j = founds.getD (j - 1) ∅ := by
        unfold oldBefore
        rw [if_neg (Nat.pos_iff_ne_zero.mp (Nat.lt_of_lt_of_le hk0 hj.le))]
      rw [hold] at hmem
      exact habs (j - 1) (by omega) (Finset.mem_sdiff.mp hmem).1
    · rw [runUpdateContacts_getD_of_le init founds j (Nat.le_of_not_lt hjl)]
      exact Finset.not_mem_empty c

/-- Witness for `contact_removed_exactly_once`: the contact `"LF"` is found on
cycle 0 and never again; it is removed on cycle 1 only. -/
theorem contact_removed_exactly_once_witness :
    "LF" ∈ (runUpdateContacts ∅ [{"LF"}, ∅, ∅]).getD 1 ∅
  ∧ ∀ j, 1 < j → "LF" ∉ (runUpdateContacts ∅ [{"LF"}, ∅, ∅]).getD j ∅ :=
  contact_removed_exactly_once ∅ [{"LF"}, ∅, ∅] "LF" 1 (by decide) (by decide)
    (by decide)
    (by
      intro j hj
      match j, hj with
      | 1, _ => simp
      | 2, _ => simp
      | (j + 3), _ => simp [List.getD])

/-! ## Claims about the contact registry -/

/-- C2 (failing input): re-inserting the sensor-less contact `"c"` with the
*same* association `hasSensor = false` trips the consistency assertion instead
of being a no-op, and re-inserting it with the *different* association
`hasSensor = true` is accepted as a no-op instead of failing: the `else`
branch of `MapContacts::insertElement` (measurementsTools.h, line 490) stores
`hasSensor_[name] = true` for a contact inserted with `hasSensor = false`. -/
theorem reinsert_same_association_raises :
    ((insertContactNoSurface {} "c" false).bind fun m =>
        insertContactNoSurface m "c" false)
      = Except.error MapError.consistency
  ∧ ((insertContactNoSurface {} "c" false).bind fun m =>
        insertContactNoSurface m "c" true)
      = insertContactNoSurface {} "c" false := by decide

/-- C7 (failing input): after registering the sensor-less contact `"c"`, the
round trip `getNumFromName (getNameFromNum 0)` fails with a lookup error
instead of returning id 0, because `insertElement` recorded
`hasSensor_["c"] = true` (measurementsTools.h, line 490) and `getNumFromName`
therefore looks the name up in `mapContactsWithSensors_`, which does not
contain it. -/
theorem index_name_roundtrip_fails :
    ((insertContactNoSurface {} "c" false).bind fun m =>
        (getNameFromNum m 0).bind fun n => getNumFromName m n)
      = Except.error MapError.notFound
  ∧ ((insertContactNoSurface {} "s" true).bind fun m =>
        (getNameFromNum m 0).bind fun n => getNumFromName m n)
      = Except.ok 0 := by decide

theorem setFlag_ok (flags : ExtFlags) (n : String) (b : Bool)
    (h : (alistFind flags n).isSome) :
    ∃ flags', setFlag flags n b = .ok flags'
      ∧ ∀ m, alistFind flags' m = if m = n then some b else alistFind flags m := by
  induction flags with
  | nil => simp [alistFind] at h
  | cons kv rest ih =>
    obtain ⟨k, v⟩ := kv
    by_cases hk : k = n
    · subst hk
      refine ⟨(k, b) :: rest, by simp [setFlag], ?_⟩
      intro m
      by_cases hm : k = m
      · subst hm; simp [alistFind]
      · have hmk : ¬m = k := fun h => hm h.symm
        simp [alistFind, hm, hmk]
    · have h' : (alistFind rest n).isSome := by
        simpa [alistFind, hk] using h
      obtain ⟨r', hr, hl⟩ := ih h'
      refine ⟨(k, v) :: r', by simp [setFlag, hk, hr, Except.map], ?_⟩
      intro m
      by_cases hm : k = m
      · subst hm; simp [alistFind, fun h : k = n => hk h]
      · simp [alistFind, hm, hl m]

theorem findContactsFromThreshold_run (mass gravity : ℚ) :
    ∀ (sensors : List ForceSensorReading) (found0 : Finset String) (flags : ExtFlags),
      (∀ t ∈ sensors, (alistFind flags t.name).isSome) →
      ∃ flags1,
        findContactsFromThreshold mass gravity sensors found0 flags
          = .ok (found0 ∪ thresholdDetectedNames mass gravity sensors, flags1)
        ∧ ∀ n, alistFind flags1 n
            = if n ∈ thresholdDetectedNames mass gravity sensors then some false
              else alistFind flags n := by
  intro sensors
  induction sensors with
  | nil =>
    intro found0 flags _
    exact ⟨flags, by simp [findContactsFromThreshold, thresholdDetectedNames],
           by simp [thresholdDetectedNames]⟩
  | cons s rest ih =>
    intro found0 flags hfl
    by_cases hdet : thresholdDetected mass gravity s = true
    · obtain ⟨fl', hset, hlook⟩ := setFlag_ok flags s.name false (hfl s (by simp))
      have hfl' : ∀ t ∈ rest, (alistFind fl' t.name).isSome := by
        intro t ht
        rw [hlook t.name]
        by_cases h : t.name = s.name
        · simp [h]
        · rw [if_neg h]; exact hfl t (by simp [ht])
      obtain ⟨flags1, hrun, hlook1⟩ := ih (insert s.name found0) fl' hfl'
      have hD : thresholdDetectedNames mass gravity (s :: rest)
          = insert s.name (thresholdDetectedNames mass gravity rest) := by
        simp [thresholdDetectedNames, List.filter_cons, hdet]
      have hstep : findContactsFromThreshold mass gravity (s :: rest) found0 flags
          = findContactsFromThreshold mass gravity rest (insert s.name found0) fl' := by
        simp only [findContactsFromThreshold, hdet, if_true, hset]
        rfl
      refine ⟨flags1, ?_, ?_⟩
      · rw [hstep, hrun, hD]
        congr 1
        ext x
        simp [Finset.mem_insert, Finset.mem_union]
        tauto
      · intro n
        rw [hlook1 n, hlook n, hD]
        by_cases h1 : n ∈ thresholdDetectedNames mass gravity rest
        · simp [h1]
        · by_cases h2 : n = s.name
          · simp [h1, h2]
          · simp [h1, h2]
    · have hdet' : thresholdDetected mass gravity s = false := by
        simpa using hdet
      have hD : thresholdDetectedNames mass gravity (s :: rest)
          = thresholdDetectedNames mass gravity rest := by
        simp [thresholdDetectedNames, List.filter_cons, hdet']
      have hstep : findContactsFromThreshold mass gravity (s :: rest) found0 flags
          = findContactsFromThreshold mass gravity rest found0 flags := by
        simp [findContactsFromThreshold, hdet']
      obtain ⟨flags1, hrun, hlook1⟩ := ih found0 flags (fun t ht => hfl t (by simp [ht]))
      exact ⟨flags1, by rw [hstep, hrun, hD], by rw [hD]; exact hlook1⟩

/-- C3: under force-threshold detection, a sensor is classified active on a
cycle if and only if its measured gravity-free force (z-component) is strictly
greater than `mass * gravity * 0.3`; a reading exactly at the threshold is
classified inactive. -/
theorem threshold_detection_strict (mass gravity : ℚ)
    (sensors : List ForceSensorReading) (flags : ExtFlags) (s : ForceSensorReading)
    (hnd : (sensors.map ForceSensorReading.name).Nodup)
    (hfl : ∀ t ∈ sensors, (alistFind flags t.name).isSome)
    (hs : s ∈ sensors) :
    ∃ res, findContactsFromThreshold mass gravity sensors ∅ flags = .ok res
      ∧ (s.name ∈ res.1 ↔ mass * gravity * (3 / 10) < s.forceZ)
      ∧ (s.forceZ = mass * gravity * (3 / 10) → s.name ∉ res.1) := by
  obtain ⟨flags1, hrun, _⟩ := findContactsFromThreshold_run mass gravity sensors ∅ flags hfl
  have hmem : s.name ∈ (∅ ∪ thresholdDetectedNames mass gravity sensors : Finset String)
      ↔ mass * gravity * (3 / 10) < s.forceZ := by
    rw [Finset.empty_union]
    constructor
    · intro hmem
      simp only [thresholdDetectedNames, List.mem_toFinset, List.mem_map,
        List.mem_filter] at hmem
      obtain ⟨t, ⟨ht, hdet⟩, hname⟩ := hmem
      have : t = s := List.inj_on_of_nodup_map hnd ht hs hname
      subst this
      simpa [thresholdDetected] using hdet
    · intro hlt
      simp only [thresholdDetectedNames, List.mem_toFinset, List.mem_map,
        List.mem_filter]
      exact ⟨s, ⟨hs, by simp [thresholdDetected, hlt]⟩, rfl⟩
  refine ⟨_, hrun, hmem, ?_⟩
  intro heq habs
  exact absurd (heq ▸ hmem.mp habs) (lt_irrefl _)

/-- Witness for `threshold_detection_strict`: with robot mass 40 and gravity
9.81 the threshold is 117.72; the sensor `"FS2"` reads exactly 117.72 and is
classified inactive. -/
theorem threshold_detection_strict_witness :
    ∃ res, findContactsFromThreshold 40 (981 / 100)
        [⟨"FS1", 400, 0, 0⟩, ⟨"FS2", 11772 / 100, 0, 0⟩] ∅
        [("FS1", true), ("FS2", true)] = .ok res
      ∧ ((⟨"FS2", 11772 / 100, 0, 0⟩ : ForceSensorReading).name ∈ res.1
          ↔ (40 : ℚ) * (981 / 100) * (3 / 10)
              < (⟨"FS2", 11772 / 100, 0, 0⟩ : ForceSensorReading).forceZ)
      ∧ ((⟨"FS2", 11772 / 100, 0, 0⟩ : ForceSensorReading).forceZ
            = (40 : ℚ) * (981 / 100) * (3 / 10)
          → (⟨"FS2", 11772 / 100, 0, 0⟩ : ForceSensorReading).name ∉ res.1) :=
  threshold_detection_strict 40 (981 / 100)
    [⟨"FS1", 400, 0, 0⟩, ⟨"FS2", 11772 / 100, 0, 0⟩]
    [("FS1", true), ("FS2", true)] ⟨"FS2", 11772 / 100, 0, 0⟩
    (by decide) (by decide) (by simp)

theorem inputAdditionalWrench_run :
    ∀ (sensors : List ForceSensorReading) (force moment : Vec3) (flags : ExtFlags),
      (sensors.map ForceSensorReading.name).Nodup →
      (∀ t ∈ sensors, (alistFind flags t.name).isSome) →
      ∃ flags2,
        inputAdditionalWrench sensors force moment flags
          = .ok (force + sumFlaggedForce flags sensors,
                 moment + sumFlaggedMoment flags sensors, flags2)
        ∧ (∀ t ∈ sensors, alistFind flags2 t.name = some true)
        ∧ ∀ n, n ∉ sensors.map ForceSensorReading.name →
            alistFind flags2 n = alistFind flags n := by
  intro sensors
  induction sensors with
  | nil =>
    intro force moment flags _ _
    exact ⟨flags,
      by simp [inputAdditionalWrench, sumFlaggedForce, sumFlaggedMoment],
      by simp, fun n _ => rfl⟩
  | cons s rest ih =>
    intro force moment flags hnd hfl
    have hnd' : (rest.map ForceSensorReading.name).Nodup := (List.nodup_cons.mp hnd).2
    have hsn : s.name ∉ rest.map ForceSensorReading.name := (List.nodup_cons.mp hnd).1
    have hsome : (alistFind flags s.name).isSome := hfl s (by simp)
    cases hlk : alistFind flags s.name with
    | none => rw [hlk] at hsome; simp at hsome
    | some b =>
      cases b with
      | true =>
        obtain ⟨flags2, hrun, hall, hout⟩ :=
          ih (force + s.worldForce) (moment + s.worldMoment) flags hnd'
            (fun t ht => hfl t (by simp [ht]))
        refine ⟨flags2, ?_, ?_, ?_⟩
        · have hstep : inputAdditionalWrench (s :: rest) force moment flags
              = inputAdditionalWrench rest (force + s.worldForce)
                  (moment + s.worldMoment) flags := by
            simp [inputAdditionalWrench, hlk]
          have hf : sumFlaggedForce flags (s :: rest)
              = s.worldForce + sumFlaggedForce flags rest := by
            simp [sumFlaggedForce, List.filter_cons, hlk]
          have hm : sumFlaggedMoment flags (s :: rest)
              = s.worldMoment + sumFlaggedMoment flags rest := by
            simp [sumFlaggedMoment, List.filter_cons, hlk]
          rw [hstep, hrun, hf, hm, add_assoc, add_assoc]
        · intro t ht
          rcases List.mem_cons.mp ht with rfl | ht'
          · rw [hout t.name hsn, hlk]
          · exact hall t ht'
        · intro n hn
          exact hout n (fun h => hn (by simp [List.mem_cons]; right; simpa using h))
      | false =>
        obtain ⟨fl', hset, hlook⟩ := setFlag_ok flags s.name true (by rw [hlk]; rfl)
        have hfl' : ∀ t ∈ rest, (alistFind fl' t.name).isSome := by
          intro t ht
          rw [hlook t.name]
          by_cases h : t.name = s.name
          · simp [h]
          · rw [if_neg h]; exact hfl t (by simp [ht])
        obtain ⟨flags2, hrun, hall, hout⟩ := ih force moment fl' hnd' hfl'
        have hstep : inputAdditionalWrench (s :: rest) force moment flags
            = inputAdditionalWrench rest force moment fl' := by
          simp only [inputAdditionalWrench, hlk, hset]
          rfl
        have hname : ∀ t ∈ rest, t.name ≠ s.name := by
          intro t ht h
          exact hsn (h ▸ List.mem_map_of_mem ForceSensorReading.name ht)
        have hfilter : (rest.filter fun t => alistFind fl' t.name == some true)
            = rest.filter fun t => alistFind flags t.name == some true :=
          List.filter_congr fun t ht => by rw [hlook t.name, if_neg (hname t ht)]
        have hfeq : sumFlaggedForce fl' rest = sumFlaggedForce flags rest := by
          unfold sumFlaggedForce
          rw [hfilter]
        have hmeq : sumFlaggedMoment fl' rest = sumFlaggedMoment flags rest := by
          unfold sumFlaggedMoment
          rw [hfilter]
        have hfcons : sumFlaggedForce flags (s :: rest) = sumFlaggedForce flags rest := by
          simp [sumFlaggedForce, List.filter_cons, hlk]
        have hmcons : sumFlaggedMoment flags (s :: rest) = sumFlaggedMoment flags rest := by
          simp [sumFlaggedMoment, List.filter_cons, hlk]
        refine ⟨flags2, ?_, ?_, ?_⟩
        · rw [hstep, hrun, hfeq, hmeq, hfcons, hmcons]
        · intro t ht
          rcases List.mem_cons.mp ht with rfl | ht'
          · rw [hout t.name hsn, hlook t.name, if_pos rfl]
          · exact hall t ht'
        · intro n hn
          have hns : n ≠ s.name := by
            intro h; exact hn (by simp [h])
          have hnr : n ∉ rest.map ForceSensorReading.name := by
            intro h; exact hn (by simp [List.mem_cons]; right; simpa using h)
          rw [hout n hnr, hlook n, if_neg hns]

theorem findContactsFromSolver_run (robotName : String) (mass gravity : ℚ)
    (surfaceSensor : String → ForceSensorReading) :
    ∀ (contacts : List SolverContact) (found0 : Finset String) (flags : ExtFlags),
      (∀ c ∈ contacts, (alistFind flags (surfaceSensor c.r1Surface).name).isSome
        ∧ (alistFind flags (surfaceSensor c.r2Surface).name).isSome) →
      ∃ flags1,
        findContactsFromSolver robotName mass gravity surfaceSensor contacts found0 flags
          = .ok (found0 ∪ solverDetectedNames robotName mass gravity surfaceSensor contacts,
                 flags1)
        ∧ ∀ n, alistFind flags1 n
            = if n ∈ solverDetectedNames robotName mass gravity surfaceSensor contacts
              then some false else alistFind flags n := by
  intro contacts
  induction contacts with
  | nil =>
    intro found0 flags _
    exact ⟨flags, by simp [findContactsFromSolver, solverDetectedNames],
           by simp [solverDetectedNames]⟩
  | cons c rest ih =>
    intro found0 flags hcov
    have hcovrest : ∀ c' ∈ rest,
        (alistFind flags (surfaceSensor c'.r1Surface).name).isSome
      ∧ (alistFind flags (surfaceSensor c'.r2Surface).name).isSome :=
      fun c' hc' => hcov c' (by simp [hc'])
    have hkeep : ∀ (fl' : ExtFlags) (X : String),
        (∀ m, alistFind fl' m = if m = X then some false else alistFind flags m) →
        ∀ c' ∈ rest, (alistFind fl' (surfaceSensor c'.r1Surface).name).isSome
          ∧ (alistFind fl' (surfaceSensor c'.r2Surface).name).isSome := by
      intro fl' X hlook c' hc'
      constructor
      · rw [hlook]
        by_cases h : (surfaceSensor c'.r1Surface).name = X
        · simp [h]
        · rw [if_neg h]; exact (hcovrest c' hc').1
      · rw [hlook]
        by_cases h : (surfaceSensor c'.r2Surface).name = X
        · simp [h]
        · rw [if_neg h]; exact (hcovrest c' hc').2
    by_cases h1 : c.r1Name = robotName
    · by_cases h2 : c.r2BaseFixed = true
      · by_cases h3 : solverDetected mass gravity (surfaceSensor c.r1Surface) = true
        · -- detected through the r1 branch
          obtain ⟨fl', hset, hlook⟩ :=
            setFlag_ok flags (surfaceSensor c.r1Surface).name false (hcov c (by simp)).1
          obtain ⟨flags1, hrun, hlook1⟩ :=
            ih (insert (surfaceSensor c.r1Surface).name found0) fl' (hkeep fl' _ hlook)
          have hD : solverDetectedNames robotName mass gravity surfaceSensor (c :: rest)
              = insert (surfaceSensor c.r1Surface).name
                  (solverDetectedNames robotName mass gravity surfaceSensor rest) := by
            simp [solverDetectedNames, List.filterMap_cons, h1, h2, h3]
          have hstep : findContactsFromSolver robotName mass gravity surfaceSensor
                (c :: rest) found0 flags
              = findContactsFromSolver robotName mass gravity surfaceSensor rest
                  (insert (surfaceSensor c.r1Surface).name found0) fl' := by
            simp only [findContactsFromSolver, if_pos h1, h2, if_true, h3, hset]
            rfl
          refine ⟨flags1, ?_, ?_⟩
          · rw [hstep, hrun, hD]
            congr 1
            ext x
            simp [Finset.mem_insert, Finset.mem_union]
            tauto
          · intro n
            rw [hlook1 n, hlook n, hD]
            by_cases hn1 : n ∈ solverDetectedNames robotName mass gravity surfaceSensor rest
            · simp [hn1]
            · by_cases hn2 : n = (surfaceSensor c.r1Surface).name
              · simp [hn1, hn2]
              · simp [hn1, hn2]
        · -- r1 branch, force below threshold: skipped
          have hD : solverDetectedNames robotName mass gravity surfaceSensor (c :: rest)
              = solverDetectedNames robotName mass gravity surfaceSensor rest := by
            simp [solverDetectedNames, List.filterMap_cons, h1, h2, h3]
          have hstep : findContactsFromSolver robotName mass gravity surfaceSensor
                (c :: rest) found0 flags
              = findContactsFromSolver robotName mass gravity surfaceSensor rest found0
                  flags := by
            simp only [findContactsFromSolver, if_pos h1, h2, if_true, h3]
            rfl
          obtain ⟨flags1, hrun, hlook1⟩ := ih found0 flags hcovrest
          exact ⟨flags1, by rw [hstep, hrun, hD], by rw [hD]; exact hlook1⟩
      · -- r1 matches but the second robot is not fixed-base: skipped
        have h2' : c.r2BaseFixed = false := by simpa using h2
        have hD : solverDetectedNames robotName mass gravity surfaceSensor (c :: rest)
            = solverDetectedNames robotName mass gravity surfaceSensor rest := by
          simp [solverDetectedNames, List.filterMap_cons, h1, h2']
        have hstep : findContactsFromSolver robotName mass gravity surfaceSensor
              (c :: rest) found0 flags
            = findContactsFromSolver robotName mass gravity surfaceSensor rest found0
                flags := by
          simp only [findContactsFromSolver, if_pos h1, h2']
          rfl
        obtain ⟨flags1, hrun, hlook1⟩ := ih found0 flags hcovrest
        exact ⟨flags1, by rw [hstep, hrun, hD], by rw [hD]; exact hlook1⟩
    · by_cases h4 : c.r2Name = robotName
      · by_cases h5 : c.r1BaseFixed = true
        · by_cases h6 : solverDetected mass gravity (surfaceSensor c.r2Surface) = true
          · -- detected through the r2 branch
            obtain ⟨fl', hset, hlook⟩ :=
              setFlag_ok flags (surfaceSensor c.r2Surface).name false (hcov c (by simp)).2
            obtain ⟨flags1, hrun, hlook1⟩ :=
              ih (insert (surfaceSensor c.r2Surface).name found0) fl' (hkeep fl' _ hlook)
            have hD : solverDetectedNames robotName mass gravity surfaceSensor (c :: rest)
                = insert (surfaceSensor c.r2Surface).name
                    (solverDetectedNames robotName mass gravity surfaceSensor rest) := by
              simp [solverDetectedNames, List.filterMap_cons, h1, h4, h5, h6]
            have hstep : findContactsFromSolver robotName mass gravity surfaceSensor
                  (c :: rest) found0 flags
                = findContactsFromSolver robotName mass gravity surfaceSensor rest
                    (insert (surfaceSensor c.r2Surface).name found0) fl' := by
              simp only [findContactsFromSolver, if_neg h1, if_pos h4, h5, if_true, h6,
                hset]
              rfl
            refine ⟨flags1, ?_, ?_⟩
            · rw [hstep, hrun, hD]
              congr 1
              ext x
              simp [Finset.mem_insert, Finset.mem_union]
              tauto
            · intro n
              rw [hlook1 n, hlook n, hD]
              by_cases hn1 : n ∈ solverDetectedNames robotName mass gravity surfaceSensor rest
              · simp [hn1]
              · by_cases hn2 : n = (surfaceSensor c.r2Surface).name
                · simp [hn1, hn2]
                · simp [hn1, hn2]
          · -- r2 branch, force below threshold: skipped
            have hD : solverDetectedNames robotName mass gravity surfaceSensor (c :: rest)
                = solverDetectedNames robotName mass gravity surfaceSensor rest := by
              simp [solverDetectedNames, List.filterMap_cons, h1, h4, h5, h6]
            have hstep : findContactsFromSolver robotName mass gravity surfaceSensor
                  (c :: rest) found0 flags
                = findContactsFromSolver robotName mass gravity surfaceSensor rest found0
                    flags := by
              simp only [findContactsFromSolver, if_neg h1, if_pos h4, h5, if_true, h6]
              rfl
            obtain ⟨flags1, hrun, hlook1⟩ := ih found0 flags hcovrest
            exact ⟨flags1, by rw [hstep, hrun, hD], by rw [hD]; exact hlook1⟩
        · -- r2 matches but the first robot is not fixed-base: skipped
          have h5' : c.r1BaseFixed = false := by simpa using h5
          have hD : solverDetectedNames robotName mass gravity surfaceSensor (c :: rest)
              = solverDetectedNames robotName mass gravity surfaceSensor rest := by
            simp [solverDetectedNames, List.filterMap_cons, h1, h4, h5']
          have hstep : findContactsFromSolver robotName mass gravity surfaceSensor
                (c :: rest) found0 flags
              = findContactsFromSolver robotName mass gravity surfaceSensor rest found0
                  flags := by
            simp only [findContactsFromSolver, if_neg h1, if_pos h4, h5']
            rfl
          obtain ⟨flags1, hrun, hlook1⟩ := ih found0 flags hcovrest
          exact ⟨flags1, by rw [hstep, hrun, hD], by rw [hD]; exact hlook1⟩
      · -- the measured robot is not part of this contact: skipped
        have hD : solverDetectedNames robotName mass gravity surfaceSensor (c :: rest)
            = solverDetectedNames robotName mass gravity surfaceSensor rest := by
          simp [solverDetectedNames, List.filterMap_cons, h1, h4]
        have hstep : findContactsFromSolver robotName mass gravity surfaceSensor
              (c :: rest) found0 flags
            = findContactsFromSolver robotName mass gravity surfaceSensor rest found0
                flags := by
          simp only [findContactsFromSolver, if_neg h1, if_neg h4]
        obtain ⟨flags1, hrun, hlook1⟩ := ih found0 flags hcovrest
        exact ⟨flags1, by rw [hstep, hrun, hD], by rw [hD]; exact hlook1⟩

/-- C10: on every run cycle (in either detection mode), starting from the
all-`true` `isExternalWrench_` state established by `reset` and re-established
by every previous cycle, each force sensor contributes in exactly one way:
sensors matched to a contact detected this cycle are excluded from the summed
additional external wrench, every other sensor's gravity-free wrench is added
to it, and after the summation every sensor's flag reads `true` again. -/
theorem external_wrench_partition (withContactsDetection : Bool) (robotName : String)
    (mass gravity : ℚ) (surfaceSensor : String → ForceSensorReading)
    (solverContacts : List SolverContact) (sensors : List ForceSensorReading)
    (flags : ExtFlags)
    (hnd : (sensors.map ForceSensorReading.name).Nodup)
    (hall : ∀ t ∈ sensors, alistFind flags t.name = some true)
    (hcov : ∀ c ∈ solverContacts,
        (alistFind flags (surfaceSensor c.r1Surface).name).isSome
      ∧ (alistFind flags (surfaceSensor c.r2Surface).name).isSome) :
    ∃ res : Finset String × Vec3 × Vec3 × ExtFlags,
      findContactsCycle withContactsDetection robotName mass gravity surfaceSensor
          solverContacts sensors flags = .ok res
      ∧ res.2.1 = sumExternalForce sensors res.1
      ∧ res.2.2.1 = sumExternalMoment sensors res.1
      ∧ ∀ t ∈ sensors, alistFind res.2.2.2 t.name = some true := by
  cases withContactsDetection with
  | false =>
    obtain ⟨flags1, hrun, hlook1⟩ :=
      findContactsFromThreshold_run mass gravity sensors ∅ flags
        (fun t ht => by rw [hall t ht]; rfl)
    have hfl1 : ∀ t ∈ sensors, (alistFind flags1 t.name).isSome := by
      intro t ht
      rw [hlook1 t.name]
      by_cases h : t.name ∈ thresholdDetectedNames mass gravity sensors
      · simp [h]
      · rw [if_neg h, hall t ht]; rfl
    obtain ⟨flags2, hwr, hall2, _⟩ :=
      inputAdditionalWrench_run sensors 0 0 flags1 hnd hfl1
    have hfilter : (sensors.filter fun t => alistFind flags1 t.name == some true)
        = sensors.filter fun t =>
            decide (t.name ∉ (∅ ∪ thresholdDetectedNames mass gravity sensors : Finset String)) := by
      apply List.filter_congr
      intro t ht
      rw [hlook1 t.name, Finset.empty_union]
      by_cases h : t.name ∈ thresholdDetectedNames mass gravity sensors
      · simp [h]
      · simp [h, hall t ht]
    refine ⟨(∅ ∪ thresholdDetectedNames mass gravity sensors, 0 + sumFlaggedForce flags1 sensors,
             0 + sumFlaggedMoment flags1 sensors, flags2), ?_, ?_, ?_, hall2⟩
    · have h1 : findContactsCycle false robotName mass gravity surfaceSensor
            solverContacts sensors flags
          = Except.bind (findContactsFromThreshold mass gravity sensors ∅ flags)
              (fun p => Except.bind (inputAdditionalWrench sensors 0 0 p.2)
                (fun q => Except.ok (p.1, q))) := rfl
      rw [h1, hrun]
      show Except.bind (inputAdditionalWrench sensors 0 0 flags1)
          (fun q => Except.ok (∅ ∪ thresholdDetectedNames mass gravity sensors, q)) = _
      rw [hwr]
      rfl
    · simp only [zero_add, sumFlaggedForce, sumExternalForce]
      rw [hfilter]
    · simp only [zero_add, sumFlaggedMoment, sumExternalMoment]
      rw [hfilter]
  | true =>
    obtain ⟨flags1, hrun, hlook1⟩ :=
      findContactsFromSolver_run robotName mass gravity surfaceSensor solverContacts ∅
        flags hcov
    have hfl1 : ∀ t ∈ sensors, (alistFind flags1 t.name).isSome := by
      intro t ht
      rw [hlook1 t.name]
      by_cases h : t.name ∈ solverDetectedNames robotName mass gravity surfaceSensor
          solverContacts
      · simp [h]
      · rw [if_neg h, hall t ht]; rfl
    obtain ⟨flags2, hwr, hall2, _⟩ :=
      inputAdditionalWrench_run sensors 0 0 flags1 hnd hfl1
    have hfilter : (sensors.filter fun t => alistFind flags1 t.name == some true)
        = sensors.filter fun t =>
            decide (t.name ∉ (∅ ∪ solverDetectedNames robotName mass gravity surfaceSensor
                solverContacts : Finset String)) := by
      apply List.filter_congr
      intro t ht
      rw [hlook1 t.name, Finset.empty_union]
      by_cases h : t.name ∈ solverDetectedNames robotName mass gravity surfaceSensor
          solverContacts
      · simp [h]
      · simp [h, hall t ht]
    refine ⟨(∅ ∪ solverDetectedNames robotName mass gravity surfaceSensor solverContacts,
             0 + sumFlaggedForce flags1 sensors,
             0 + sumFlaggedMoment flags1 sensors, flags2), ?_, ?_, ?_, hall2⟩
    · have h1 : findContactsCycle true robotName mass gravity surfaceSensor
            solverContacts sensors flags
          = Except.bind (findContactsFromSolver robotName mass gravity surfaceSensor
                solverContacts ∅ flags)
              (fun p => Except.bind (inputAdditionalWrench sensors 0 0 p.2)
                (fun q => Except.ok (p.1, q))) := rfl
      rw [h1, hrun]
      show Except.bind (inputAdditionalWrench sensors 0 0 flags1)
          (fun q => Except.ok (∅ ∪ solverDetectedNames robotName mass gravity surfaceSensor
              solverContacts, q)) = _
      rw [hwr]
      rfl
    · simp only [zero_add, sumFlaggedForce, sumExternalForce]
      rw [hfilter]
    · simp only [zero_add, sumFlaggedMoment, sumExternalMoment]
      rw [hfilter]

/-- Witness for `external_wrench_partition` in threshold mode: sensor `"FS1"`
(400 N) is detected and excluded from the sum, sensor `"FS2"` (5 N) is summed,
and both flags read `true` after the cycle. -/
theorem external_wrench_partition_witness :
    ∃ res : Finset String × Vec3 × Vec3 × ExtFlags,
      findContactsCycle false "r" 40 (981 / 100) (fun _ => ⟨"FS1", 0, 0, 0⟩) []
          [⟨"FS1", 400, (1, 0, 0), (0, 1, 0)⟩, ⟨"FS2", 5, (0, 2, 0), (0, 0, 3)⟩]
          [("FS1", true), ("FS2", true)] = .ok res
      ∧ res.2.1 = sumExternalForce
          [⟨"FS1", 400, (1, 0, 0), (0, 1, 0)⟩, ⟨"FS2", 5, (0, 2, 0), (0, 0, 3)⟩] res.1
      ∧ res.2.2.1 = sumExternalMoment
          [⟨"FS1", 400, (1, 0, 0), (0, 1, 0)⟩, ⟨"FS2", 5, (0, 2, 0), (0, 0, 3)⟩] res.1
      ∧ ∀ t ∈ [(⟨"FS1", 400, (1, 0, 0), (0, 1, 0)⟩ : ForceSensorReading),
               ⟨"FS2", 5, (0, 2, 0), (0, 0, 3)⟩],
          alistFind res.2.2.2 t.name = some true :=
  external_wrench_partition false "r" 40 (981 / 100) (fun _ => ⟨"FS1", 0, 0, 0⟩) []
    [⟨"FS1", 400, (1, 0, 0), (0, 1, 0)⟩, ⟨"FS2", 5, (0, 2, 0), (0, 0, 3)⟩]
    [("FS1", true), ("FS2", true)] (by decide) (by decide) (by simp)

theorem mem_solverDetectedNames (robotName : String) (mass gravity : ℚ)
    (surfaceSensor : String → ForceSensorReading) (contacts : List SolverContact)
    (n : String) :
    n ∈ solverDetectedNames robotName mass gravity surfaceSensor contacts
      ↔ ∃ c ∈ contacts,
          (c.r1Name = robotName ∧ c.r2BaseFixed = true
            ∧ mass * gravity * (1 / 20) < (surfaceSensor c.r1Surface).forceZ
            ∧ (surfaceSensor c.r1Surface).name = n)
        ∨ (¬c.r1Name = robotName ∧ c.r2Name = robotName ∧ c.r1BaseFixed = true
            ∧ mass * gravity * (1 / 20) < (surfaceSensor c.r2Surface).forceZ
            ∧ (surfaceSensor c.r2Surface).name = n) := by
  simp only [solverDetectedNames, List.mem_toFinset, List.mem_filterMap]
  constructor
  · rintro ⟨c, hc, hsome⟩
    refine ⟨c, hc, ?_⟩
    by_cases h1 : c.r1Name = robotName
    · rw [if_pos h1] at hsome
      by_cases h23 : c.r2BaseFixed = true
          ∧ solverDetected mass gravity (surfaceSensor c.r1Surface) = true
      · rw [if_pos (by exact ⟨h23.1, h23.2⟩)] at hsome
        exact Or.inl ⟨h1, h23.1, by
          have := h23.2
          simpa [solverDetected] using this, by simpa using hsome⟩
      · rw [if_neg (by exact fun h => h23 ⟨h.1, h.2⟩)] at hsome
        exact absurd hsome (by simp)
    · rw [if_neg h1] at hsome
      by_cases h456 : c.r2Name = robotName ∧ c.r1BaseFixed = true
          ∧ solverDetected mass gravity (surfaceSensor c.r2Surface) = true
      · rw [if_pos (by exact ⟨h456.1, h456.2.1, h456.2.2⟩)] at hsome
        exact Or.inr ⟨h1, h456.1, h456.2.1, by
          have := h456.2.2
          simpa [solverDetected] using this, by simpa using hsome⟩
      · rw [if_neg (by exact fun h => h456 ⟨h.1, h.2.1, h.2.2⟩)] at hsome
        exact absurd hsome (by simp)
  · rintro ⟨c, hc, h | h⟩
    · obtain ⟨h1, h2, h3, hn⟩ := h
      refine ⟨c, hc, ?_⟩
      rw [if_pos h1, if_pos (by exact ⟨h2, by simpa [solverDetected] using h3⟩)]
      simpa using hn
    · obtain ⟨h1, h4, h5, h6, hn⟩ := h
      refine ⟨c, hc, ?_⟩
      rw [if_neg h1, if_pos (by exact ⟨h4, h5, by simpa [solverDetected] using h6⟩)]
      simpa using hn

/-- C8 (counterexample): a solver contact of the observed robot `"r"` against
a fixed-base environment whose sensor measures zero force is *not* forwarded
to the found set: the solver branch of `MCKineticsObserver::findContacts`
re-filters the solver contacts by `force.z > mass * gravity * 0.05`
(MCKineticsObserver.cpp, lines 539 and 552), so the found set is not the
forwarded solver list. -/
theorem solver_found_not_forwarded :
    findContactsFromSolver "r" 40 (981 / 100) (fun _ => ⟨"FS", 0, 0, 0⟩)
        [⟨"r", "env", false, true, "S1", "S2"⟩] ∅ [("FS", true)]
      = .ok (∅, [("FS", true)])
  ∧ specSolverForwardedFound "r" (fun _ => ⟨"FS", 0, 0, 0⟩)
        [⟨"r", "env", false, true, "S1", "S2"⟩] = {"FS"}
  ∧ (∅ : Finset String) ≠ {"FS"} := by
  have hdet : solverDetected 40 (981 / 100) (⟨"FS", 0, 0, 0⟩ : ForceSensorReading)
      = false := by
    simp only [solverDetected, decide_eq_false_iff_not]
    norm_num
  refine ⟨?_, ?_, by decide⟩
  · simp [findContactsFromSolver, hdet]
  · decide

/-- C8 (amended): in FromSolver mode the found set consists exactly of the
solver contacts that involve the observed robot, whose partner robot has a
fixed base, and whose associated surface force sensor measures a gravity-free
force z-component strictly above `mass * gravity * 0.05`; each such contact
contributes the name of that force sensor. -/
theorem solver_found_characterization (robotName : String) (mass gravity : ℚ)
    (surfaceSensor : String → ForceSensorReading) (contacts : List SolverContact)
    (flags : ExtFlags)
    (hcov : ∀ c ∈ contacts, (alistFind flags (surfaceSensor c.r1Surface).name).isSome
      ∧ (alistFind flags (surfaceSensor c.r2Surface).name).isSome)
    (n : String) :
    ∃ res, findContactsFromSolver robotName mass gravity surfaceSensor contacts ∅ flags
        = .ok res
      ∧ (n ∈ res.1 ↔ ∃ c ∈ contacts,
            (c.r1Name = robotName ∧ c.r2BaseFixed = true
              ∧ mass * gravity * (1 / 20) < (surfaceSensor c.r1Surface).forceZ
              ∧ (surfaceSensor c.r1Surface).name = n)
          ∨ (¬c.r1Name = robotName ∧ c.r2Name = robotName ∧ c.r1BaseFixed = true
              ∧ mass * gravity * (1 / 20) < (surfaceSensor c.r2Surface).forceZ
              ∧ (surfaceSensor c.r2Surface).name = n)) := by
  obtain ⟨flags1, hrun, _⟩ :=
    findContactsFromSolver_run robotName mass gravity surfaceSensor contacts ∅ flags hcov
  refine ⟨_, hrun, ?_⟩
  rw [Finset.empty_union]
  exact mem_solverDetectedNames robotName mass gravity surfaceSensor contacts n

/-- Witness for `solver_found_characterization`: a contact of robot `"r"`
against a fixed-base environment with a 400 N sensor reading is found under
the name of its force sensor `"FS"`. -/
theorem solver_found_characterization_witness :
    ∃ res, findContactsFromSolver "r" 40 (981 / 100) (fun _ => ⟨"FS", 400, 0, 0⟩)
        [⟨"r", "env", false, true, "S1", "S2"⟩] ∅ [("FS", true)] = .ok res
      ∧ ("FS" ∈ res.1 ↔ ∃ c ∈ [(⟨"r", "env", false, true, "S1", "S2"⟩ : SolverContact)],
            (c.r1Name = "r" ∧ c.r2BaseFixed = true
              ∧ (40 : ℚ) * (981 / 100) * (1 / 20)
                  < ((fun _ => (⟨"FS", 400, 0, 0⟩ : ForceSensorReading)) c.r1Surface).forceZ
              ∧ ((fun _ => (⟨"FS", 400, 0, 0⟩ : ForceSensorReading)) c.r1Surface).name = "FS")
          ∨ (¬c.r1Name = "r" ∧ c.r2Name = "r" ∧ c.r1BaseFixed = true
              ∧ (40 : ℚ) * (981 / 100) * (1 / 20)
                  < ((fun _ => (⟨"FS", 400, 0, 0⟩ : ForceSensorReading)) c.r2Surface).forceZ
              ∧ ((fun _ => (⟨"FS", 400, 0, 0⟩ : ForceSensorReading)) c.r2Surface).name = "FS")) :=
  solver_found_characterization "r" 40 (981 / 100) (fun _ => ⟨"FS", 400, 0, 0⟩)
    [⟨"r", "env", false, true, "S1", "S2"⟩] [("FS", true)] (by simp [alistFind]) "FS"

/-! ## Claims about the legged odometry -/

/-- C4: the orientation selector keeps only currently set, orientation-enabled,
non-hand contacts; it selects at most two of them (all of them when fewer than
two are eligible); every selected contact strictly outranks every unselected
eligible contact (higher force, ties by ascending id); and the orientation is
flagged not-updatable exactly when no contact is eligible. -/
theorem orientation_selection_top2 (contacts : List LoContact)
    (hids : (contacts.map LoContact.id).Nodup) :
    (∀ c ∈ (selectForOrientationOdometry contacts).1,
        c ∈ contacts ∧ oriContactEligible c = true)
  ∧ (selectForOrientationOdometry contacts).1.length
      = min 2 (contacts.filter oriContactEligible).length
  ∧ (∀ c ∈ (selectForOrientationOdometry contacts).1, ∀ c' ∈ contacts,
        oriContactEligible c' = true → c' ∉ (selectForOrientationOdometry contacts).1 →
          oriBeats c c')
  ∧ ((selectForOrientationOdometry contacts).2 = false
      ↔ contacts.filter oriContactEligible = []) := by
  have hsel : (selectForOrientationOdometry contacts).1
      = ((contacts.filter oriContactEligible).insertionSort oriPriority).take 2 := rfl
  have hupd : (selectForOrientationOdometry contacts).2
      = !(contacts.filter oriContactEligible).isEmpty := rfl
  have hperm := List.perm_insertionSort oriPriority (contacts.filter oriContactEligible)
  have hsorted := List.sorted_insertionSort oriPriority (contacts.filter oriContactEligible)
  have hmem : ∀ c ∈ (selectForOrientationOdometry contacts).1,
      c ∈ contacts ∧ oriContactEligible c = true := by
    intro c hc
    rw [hsel] at hc
    have : c ∈ (contacts.filter oriContactEligible).insertionSort oriPriority :=
      List.mem_of_mem_take hc
    have := hperm.mem_iff.mp this
    exact ⟨(List.mem_filter.mp this).1, (List.mem_filter.mp this).2⟩
  refine ⟨hmem, ?_, ?_, ?_⟩
  · rw [hsel, List.length_take, hperm.length_eq]
  · intro c hc c' hc' helig hnot
    have hcmem := hmem c hc
    rw [hsel] at hc hnot
    have hc'sorted : c' ∈ (contacts.filter oriContactEligible).insertionSort oriPriority :=
      hperm.mem_iff.mpr (List.mem_filter.mpr ⟨hc', helig⟩)
    have hc'drop : c' ∈ ((contacts.filter oriContactEligible).insertionSort
        oriPriority).drop 2 := by
      have happ : c' ∈ ((contacts.filter oriContactEligible).insertionSort
            oriPriority).take 2
          ++ ((contacts.filter oriContactEligible).insertionSort oriPriority).drop 2 := by
        rw [List.take_append_drop]
        exact hc'sorted
      rcases List.mem_append.mp happ with h | h
      · exact absurd h hnot
      · exact h
    have hrel : oriPriority c c' := hsorted.rel_of_mem_take_of_mem_drop hc hc'drop
    have hne : c ≠ c' := fun h => hnot (h ▸ hc)
    rcases hrel with h | ⟨hfe, hid⟩
    · exact Or.inl h
    · refine Or.inr ⟨hfe, lt_of_le_of_ne hid ?_⟩
      intro hideq
      exact hne (List.inj_on_of_nodup_map hids hcmem.1 hc' hideq)
  · rw [hupd]
    simp [List.isEmpty_iff]

/-- Witness for `orientation_selection_top2`, on the spec's example: contacts
A (force 10), B (force 30), C (force 5), D (hand, force 100): the selection is
`[B, A]` and D is excluded despite its force. -/
theorem orientation_selection_top2_witness :
    (selectForOrientationOdometry
        [⟨0, "A", 10, true, true, false⟩, ⟨1, "B", 30, true, true, false⟩,
         ⟨2, "C", 5, true, true, false⟩, ⟨3, "D", 100, true, true, true⟩]).1
      = [⟨1, "B", 30, true, true, false⟩, ⟨0, "A", 10, true, true, false⟩]
  ∧ ((∀ c ∈ (selectForOrientationOdometry
        [⟨0, "A", 10, true, true, false⟩, ⟨1, "B", 30, true, true, false⟩,
         ⟨2, "C", 5, true, true, false⟩, ⟨3, "D", 100, true, true, true⟩]).1,
        c ∈ [(⟨0, "A", 10, true, true, false⟩ : LoContact),
             ⟨1, "B", 30, true, true, false⟩, ⟨2, "C", 5, true, true, false⟩,
             ⟨3, "D", 100, true, true, true⟩]
          ∧ oriContactEligible c = true)
    ∧ (selectForOrientationOdometry
        [⟨0, "A", 10, true, true, false⟩, ⟨1, "B", 30, true, true, false⟩,
         ⟨2, "C", 5, true, true, false⟩, ⟨3, "D", 100, true, true, true⟩]).1.length
        = min 2 ([(⟨0, "A", 10, true, true, false⟩ : LoContact),
             ⟨1, "B", 30, true, true, false⟩, ⟨2, "C", 5, true, true, false⟩,
             ⟨3, "D", 100, true, true, true⟩].filter oriContactEligible).length
    ∧ (∀ c ∈ (selectForOrientationOdometry
        [⟨0, "A", 10, true, true, false⟩, ⟨1, "B", 30, true, true, false⟩,
         ⟨2, "C", 5, true, true, false⟩, ⟨3, "D", 100, true, true, true⟩]).1,
        ∀ c' ∈ [(⟨0, "A", 10, true, true, false⟩ : LoContact),
             ⟨1, "B", 30, true, true, false⟩, ⟨2, "C", 5, true, true, false⟩,
             ⟨3, "D", 100, true, true, true⟩],
          oriContactEligible c' = true →
            c' ∉ (selectForOrientationOdometry
              [⟨0, "A", 10, true, true, false⟩, ⟨1, "B", 30, true, true, false⟩,
               ⟨2, "C", 5, true, true, false⟩, ⟨3, "D", 100, true, true, true⟩]).1 →
              oriBeats c c')
    ∧ ((selectForOrientationOdometry
        [⟨0, "A", 10, true, true, false⟩, ⟨1, "B", 30, true, true, false⟩,
         ⟨2, "C", 5, true, true, false⟩, ⟨3, "D", 100, true, true, true⟩]).2 = false
        ↔ [(⟨0, "A", 10, true, true, false⟩ : LoContact),
             ⟨1, "B", 30, true, true, false⟩, ⟨2, "C", 5, true, true, false⟩,
             ⟨3, "D", 100, true, true, true⟩].filter oriContactEligible = [])) :=
  ⟨by decide,
   orientation_selection_top2
     [⟨0, "A", 10, true, true, false⟩, ⟨1, "B", 30, true, true, false⟩,
      ⟨2, "C", 5, true, true, false⟩, ⟨3, "D", 100, true, true, true⟩] (by decide)⟩

/-- C5: with `odometryType = Flat`, the committed floating-base z-position of
every cycle equals the control-reference robot's z-position of that same
cycle, for any initial pose and any sequence of floating-base estimate
updates. -/
theorem flat_odometry_z_tracks_reference (init : Pose3)
    (steps : List ((Pose3 → Pose3) × ℚ)) :
    (runOdometry OdometryType.Flat init steps).map Pose3.z = steps.map Prod.snd := by
  induction steps generalizing init with
  | nil => rfl
  | cons st rest ih =>
    obtain ⟨u, rz⟩ := st
    simp [runOdometry, odometryStep, commitPose, ih]

/-- C6: on every cycle, the anchor comes from the contacts when at least one
contact is active and from the fallback body-sensor frame otherwise, and the
`anchorFrameMethodChanged_` flag of a cycle is `true` exactly when that
cycle's anchor source differs from the previous cycle's source. -/
theorem anchor_flag_iff_source_changed {α : Type} [Inhabited α] (st : AnchorState)
    (inputs : List (Bool × α × α)) (k : ℕ) (hk : k < inputs.length) :
    ((anchorFrameRun st inputs).getD k default).2
      = decide (¬(inputs.getD k default).1
          = if k = 0 then st.prevAnchorFromContacts else (inputs.getD (k - 1) default).1)
  ∧ ((anchorFrameRun st inputs).getD k default).1
      = (if (inputs.getD k default).1 then (inputs.getD k default).2.1
         else (inputs.getD k default).2.2) := by
  induction inputs generalizing st k with
  | nil => simp at hk
  | cons input rest ih =>
    obtain ⟨b, fromContacts, fallback⟩ := input
    cases k with
    | zero =>
      constructor
      · simp [anchorFrameRun, anchorFrameStep]
      · simp [anchorFrameRun, anchorFrameStep]
    | succ k =>
      have hk' : k < rest.length := by simpa using hk
      have h := ih ⟨b, b, decide (¬b = st.prevAnchorFromContacts)⟩ k hk'
      cases k with
      | zero =>
        simpa [anchorFrameRun, anchorFrameStep] using h
      | succ k2 =>
        simpa [anchorFrameRun, anchorFrameStep] using h

/-- Witness for `anchor_flag_iff_source_changed`: the anchor source flips from
contacts (cycle 0) to the fallback frame (cycle 1); on cycle 1 the flag is set
and the anchor is the fallback pose 8. -/
theorem anchor_flag_iff_source_changed_witness :
    ((anchorFrameRun {} [(true, (1 : ℚ), 9), (false, 2, 8), (false, 3, 7)]).getD 1
        default).2
      = decide (¬([(true, (1 : ℚ), 9), (false, 2, 8), (false, 3, 7)].getD 1 default).1
          = if 1 = 0 then AnchorState.prevAnchorFromContacts {}
            else ([(true, (1 : ℚ), 9), (false, 2, 8), (false, 3, 7)].getD 0 default).1)
  ∧ ((anchorFrameRun {} [(true, (1 : ℚ), 9), (false, 2, 8), (false, 3, 7)]).getD 1
        default).1
      = (if ([(true, (1 : ℚ), 9), (false, 2, 8), (false, 3, 7)].getD 1 default).1
         then ([(true, (1 : ℚ), 9), (false, 2, 8), (false, 3, 7)].getD 1 default).2.1
         else ([(true, (1 : ℚ), 9), (false, 2, 8), (false, 3, 7)].getD 1 default).2.2) :=
  anchor_flag_iff_source_changed {} [(true, (1 : ℚ), 9), (false, 2, 8), (false, 3, 7)] 1
    (by decide)

end McSO
